import Mathlib

/-!
Shallow embedding of the gamification / carbon-accounting core of the
City-Zen backend (Flask + MongoDB).  The relevant Python source:

  * `src/utils/carbon_calculator.py` — `calculate_carbon_savings`
  * `src/models/database.py`        — `User.add_points`, `Bill.get_usage_comparison`
  * `src/blueprints/rewards.py`     — `claim_reward`, `verify_task_completion`
  * `src/blueprints/bills.py`       — `manual_entry`

Modelling conventions:
  * Python ints are `ℤ`; Python floats are modelled as exact rationals `ℚ`
    (the standard real-arithmetic reading of the float code).
  * Mongo collections are Lean lists of records; `find_one` is the first
    list element matching the query; `update_one` rewrites the first match.
  * Python exceptions that the code catches are modelled by the explicit
    control path the handler takes (the `except` branches return error
    responses, which we model as explicit outcome constructors).
-/

namespace CityZen

/-- Python `round(x, 2)` ingredient: round to the nearest integer with ties
going to the even integer (banker's rounding, the semantics of Python 3
`round` on exact values). -/
def roundHalfEven (q : ℚ) : ℤ :=
  let f : ℤ := ⌊q⌋
  let r : ℚ := q - f
  if r < 1/2 then f
  else if 1/2 < r then f + 1
  else if f % 2 = 0 then f else f + 1

/-- Python `round(x, 2)`: round to 2 decimal places. -/
def round2 (q : ℚ) : ℚ := (roundHalfEven (q * 100) : ℚ) / 100

/-- Python `int(x)` on a float/rational: truncation toward zero. -/
def truncInt (q : ℚ) : ℤ := Int.tdiv q.num (q.den : ℤ)

/-- Python's `//` on ints is floor division. -/
def pyFloorDiv (a b : ℤ) : ℤ := Int.fdiv a b

/-- Truthiness of an optional string field, as Python's
`if reward.get('badge_name')`: `None` and the empty string are falsy. -/
def strOptTruthy : Option String → Bool
  | none => false
  | some s => s ≠ ""

/-!  ## `utils/carbon_calculator.py` -/

/-- The `emission_factors` dict literal: resource type → (unit → factor),
in declaration order. -/
def emission_factors : List (String × List (String × ℚ)) :=
  [("electricity", [("kWh", 1/2), ("MWh", 500)]),
   ("water", [("liters", 3/10000), ("cubic_meters", 3/10), ("gallons", 1/1000)]),
   ("gas", [("cubic_meters", 2), ("therms", 53/10), ("kWh", 1/5)])]

/-- The `default_factors` dict literal. -/
def default_factors : List (String × ℚ) :=
  [("electricity", 1/2), ("water", 3/10000), ("gas", 2)]

/-- Python dict lookup `d.get(k)` over a literal dict, as an association
list search. -/
def dictGet {α : Type} (d : List (String × α)) (k : String) : Option α :=
  (d.find? (fun p => p.1 = k)).map (·.2)

/-- `calculate_carbon_savings(bill_type, usage_reduction)`:
if `bill_type` is a key of `emission_factors`, the factor is
`list(emission_factors[bill_type].values())[0]` (the first-declared unit's
factor); otherwise `default_factors.get(bill_type, 0.5)`.  Returns
`round(usage_reduction * factor, 2)`.  (The `getD (1/2)` on `head?` is
unreachable: every inner dict in the literal is nonempty.) -/
def calculate_carbon_savings (bill_type : String) (usage_reduction : ℚ) : ℚ :=
  let factor : ℚ :=
    match dictGet emission_factors bill_type with
    | some units => ((units.head?).map (·.2)).getD (1/2)
    | none => (dictGet default_factors bill_type).getD (1/2)
  round2 (usage_reduction * factor)

/-!  ## Data model (`models/database.py`) -/

/-- A document of the `users` collection, with the fields `create_user`
initializes and the core reads/writes.  (`name`, `password_hash`,
followers, etc. are irrelevant to the claims and omitted.) -/
structure UserRec where
  user_id : String
  email : String
  points : ℤ
  badges : List String
  level : ℤ
  carbon_footprint_saved : ℚ
deriving Repr, DecidableEq

/-- A document of the `posts` collection (fields the core reads). -/
structure PostRec where
  user_id : String
  likes_count : ℤ
deriving Repr, DecidableEq

/-- A document of the `reports` collection (fields the core reads). -/
structure ReportRec where
  user_id : String
  likes_count : ℤ
deriving Repr, DecidableEq

/-- A document of the `bills` collection.  `created_at` is the insertion
timestamp set by `BaseModel.insert_one` (modelled as a natural number). -/
structure BillRec where
  user_id : String
  btype : String
  usage_amount : ℚ
  cost : ℚ
  created_at : ℕ
deriving Repr, DecidableEq

/-- A document of the `rewards` collection, per `Reward.create_reward`.
`badge_name` is `reward_data.get('badge_name')` (may be absent);
`task_count` defaults to 1 at creation. -/
structure RewardRec where
  reward_id : String
  title : String
  description : String
  points_required : ℤ
  badge_name : Option String
  task_type : String
  task_count : ℤ
deriving Repr, DecidableEq

/-- A document of the `notifications` collection, per
`Notification.create_notification`. -/
structure NotifRec where
  user_id : String
  title : String
  message : String
  ntype : String
deriving Repr, DecidableEq

/-- The document store: one list per collection the core touches. -/
structure DBState where
  users : List UserRec
  posts : List PostRec
  reports : List ReportRec
  bills : List BillRec
  rewards : List RewardRec
  notifications : List NotifRec
deriving Repr, DecidableEq

/-- `find_one({'user_id': uid})` on `users`: first matching document. -/
def findUserById (s : DBState) (uid : String) : Option UserRec :=
  s.users.find? (fun u => u.user_id = uid)

/-- `find_one({'email': email})` on `users`: first matching document. -/
def findUserByEmail (s : DBState) (email : String) : Option UserRec :=
  s.users.find? (fun u => u.email = email)

/-- `find_one({'reward_id': rid})` on `rewards`. -/
def findReward (s : DBState) (rid : String) : Option RewardRec :=
  s.rewards.find? (fun r => r.reward_id = rid)

/-- Mongo `update_one`: rewrite the first document matching the query
(`user_id` carries a unique index, so at most one matches). -/
def updateFirst {α : Type} (p : α → Bool) (f : α → α) : List α → List α
  | [] => []
  | x :: xs => if p x then f x :: xs else x :: updateFirst p f xs

/-- `count_documents({'user_id': uid})` on `posts`. -/
def countPosts (s : DBState) (uid : String) : ℕ :=
  (s.posts.filter (fun p => p.user_id = uid)).length

/-- `count_documents({'user_id': uid})` on `reports`. -/
def countReports (s : DBState) (uid : String) : ℕ :=
  (s.reports.filter (fun r => r.user_id = uid)).length

/-- `count_documents({'user_id': uid})` on `bills`. -/
def countBills (s : DBState) (uid : String) : ℕ :=
  (s.bills.filter (fun b => b.user_id = uid)).length

/-- Sum of `likes_count` across a user's posts plus reports
(the `likes_received` predicate of `verify_task_completion`). -/
def totalLikes (s : DBState) (uid : String) : ℤ :=
  ((s.posts.filter (fun p => p.user_id = uid)).map (·.likes_count)).sum +
  ((s.reports.filter (fun r => r.user_id = uid)).map (·.likes_count)).sum

/-!  ## `User.add_points` (`models/database.py` lines 108–119) -/

/-- `User.add_points(user_id, points)`: looks up the user; on a miss
returns `False` leaving the store untouched; on a hit sets
`points = points + delta` and `level = max(1, new_points // 100)`
(Python floor division) via one `update_one`, returning `True`. -/
def add_points (s : DBState) (user_id : String) (points : ℤ) : DBState × Bool :=
  match findUserById s user_id with
  | some user =>
      let new_points := user.points + points
      let new_level := max 1 (pyFloorDiv new_points 100)
      let users' := updateFirst (fun u => u.user_id = user_id)
          (fun u => { u with points := new_points, level := new_level }) s.users
      ({ s with users := users' }, true)
  | none => (s, false)

/-!  ## `Bill.get_usage_comparison` (`models/database.py` lines 241–264) -/

/-- Insert into a list kept sorted by `created_at` descending
(the `sort=[('created_at', DESCENDING)]` of the Mongo query). -/
def insertByCreatedDesc (b : BillRec) : List BillRec → List BillRec
  | [] => [b]
  | c :: cs =>
      if c.created_at ≤ b.created_at then b :: c :: cs
      else c :: insertByCreatedDesc b cs

/-- Sort bills by `created_at` descending. -/
def sortByCreatedDesc : List BillRec → List BillRec
  | [] => []
  | b :: bs => insertByCreatedDesc b (sortByCreatedDesc bs)

/-- The record `get_usage_comparison` returns. -/
structure Comparison where
  current_usage : ℚ
  previous_usage : ℚ
  usage_difference : ℚ
  cost_difference : ℚ
  percentage_change : ℚ
deriving Repr, DecidableEq

/-- `Bill.get_usage_comparison(user_id, bill_type)`: fetch the last two
bills for `(user_id, type)` ordered by `created_at` descending; `None`
when fewer than 2 exist; otherwise the comparison record, with
`percentage_change = usage_diff / previous * 100` when
`previous['usage_amount'] > 0`, else `0`. -/
def get_usage_comparison (s : DBState) (user_id bill_type : String) :
    Option Comparison :=
  let bills :=
    (sortByCreatedDesc
      (s.bills.filter (fun b => b.user_id = user_id ∧ b.btype = bill_type))).take 2
  match bills with
  | current :: previous :: _ =>
      let usage_diff := current.usage_amount - previous.usage_amount
      let cost_diff := current.cost - previous.cost
      some
        { current_usage := current.usage_amount
          previous_usage := previous.usage_amount
          usage_difference := usage_diff
          cost_difference := cost_diff
          percentage_change :=
            if 0 < previous.usage_amount
            then usage_diff / previous.usage_amount * 100
            else 0 }
  | _ => none

/-!  ## `verify_task_completion` (`blueprints/rewards.py` lines 117–171) -/

/-- `verify_task_completion(user_id, reward)`: dispatch on
`reward['task_type']` with threshold `reward.get('task_count', 1)`.
For `carbon_saved` and `level_reached` the code does
`user = find_one(...); user.get(...)`: when the user is missing,
`None.get` raises `AttributeError`, which the surrounding
`except` clause turns into `False` — modelled by the `none => false`
branches.  Unrecognized task types return `True` (manual verification). -/
def verify_task_completion (s : DBState) (user_id : String) (reward : RewardRec) :
    Bool :=
  let task_count := reward.task_count
  if reward.task_type = "posts_created" then
    task_count ≤ (countPosts s user_id : ℤ)
  else if reward.task_type = "reports_created" then
    task_count ≤ (countReports s user_id : ℤ)
  else if reward.task_type = "bills_uploaded" then
    task_count ≤ (countBills s user_id : ℤ)
  else if reward.task_type = "carbon_saved" then
    match findUserById s user_id with
    | some user => (task_count : ℚ) ≤ user.carbon_footprint_saved
    | none => false
  else if reward.task_type = "likes_received" then
    task_count ≤ totalLikes s user_id
  else if reward.task_type = "level_reached" then
    match findUserById s user_id with
    | some user => task_count ≤ user.level
    | none => false
  else
    true

/-!  ## `claim_reward` (`blueprints/rewards.py` lines 53–115) -/

/-- The HTTP outcome of the `claim_reward` endpoint. -/
inductive ClaimOutcome where
  /-- `error_response('User not found', 404)` -/
  | userNotFound
  /-- `error_response('Reward not found', 404)` -/
  | rewardNotFound
  /-- `error_response('Insufficient points. ...', 400)`, reporting
  required vs. held points -/
  | insufficientPoints (required held : ℤ)
  /-- `error_response('Reward already claimed', 400)` -/
  | alreadyClaimed
  /-- `error_response('Task not completed. ...', 400)`, echoing the
  reward's description -/
  | taskIncomplete (description : String)
  /-- the `except` clause: `error_response('Failed to claim reward...', 500)` -/
  | internalError
  /-- `success_response` with reward title, badge earned, points spent and
  remaining points -/
  | success (reward_title : String) (badge_earned : Option String)
      (points_spent remaining_points : ℤ)
deriving Repr, DecidableEq

/-- The notification document `claim_reward` creates on success
(`create_notification` with title "Reward Claimed!" and type "reward"). -/
def claimNotif (uid : String) : NotifRec :=
  { user_id := uid
    title := "Reward Claimed!"
    message := "You claimed the reward!"
    ntype := "reward" }

/-- `claim_reward(reward_id)` for the authenticated user `email`.
Checks run in source order: user lookup, reward lookup, points,
already-claimed badge (the Python test is
`reward.get('badge_name') and reward['badge_name'] in user_badges`, so a
missing or empty badge name skips it), task verification.  On success the
new points and (when the badge name is truthy) the appended badge list are
persisted in one `update_one`, then `create_notification` runs; `notif_ok`
models whether that external call raises (when it does, the `except`
clause answers 500 after the user update has already been applied). -/
def claim_reward (s : DBState) (email reward_id : String) (notif_ok : Bool) :
    DBState × ClaimOutcome :=
  match findUserByEmail s email with
  | none => (s, .userNotFound)
  | some current_user =>
    match findReward s reward_id with
    | none => (s, .rewardNotFound)
    | some reward =>
      let user_points := current_user.points
      if user_points < reward.points_required then
        (s, .insufficientPoints reward.points_required user_points)
      else
        let user_badges := current_user.badges
        if strOptTruthy reward.badge_name ∧
            reward.badge_name.getD "" ∈ user_badges then
          (s, .alreadyClaimed)
        else if ¬ verify_task_completion s current_user.user_id reward then
          (s, .taskIncomplete reward.description)
        else
          let new_points := user_points - reward.points_required
          let new_badges :=
            if strOptTruthy reward.badge_name
            then user_badges ++ [reward.badge_name.getD ""]
            else user_badges
          let users' := updateFirst (fun u => u.user_id = current_user.user_id)
              (fun u => { u with points := new_points, badges := new_badges })
              s.users
          let s' := { s with users := users' }
          if notif_ok then
            ({ s' with notifications :=
                s'.notifications ++ [claimNotif current_user.user_id] },
             .success reward.title reward.badge_name reward.points_required
               new_points)
          else
            (s', .internalError)

/-!  ## `manual_entry` (`blueprints/bills.py` lines 57–123) -/

/-- The validated JSON body of a manual bill entry (the required fields
the endpoint reads; `usage_unit`, `billing_period` and `file_id` are
stored but never read by the flows under study). -/
structure BillInput where
  btype : String
  usage_amount : ℚ
  cost : ℚ
deriving Repr, DecidableEq

/-- The HTTP outcome of the `manual_entry` endpoint. -/
inductive ManualOutcome where
  /-- `error_response('User not found', 404)` -/
  | userNotFound
  /-- `error_response('Invalid bill type...', 400)` -/
  | invalidBillType
  /-- the `except` clause: `error_response('Failed to record bill...', 500)` -/
  | internalError
  /-- `success_response(..., 201)` -/
  | success
deriving Repr, DecidableEq

/-- `Bill.create_bill` called from `manual_entry`: insert the bill
document (with `created_at := now` set by `insert_one`). -/
def insertBill (s : DBState) (uid : String) (d : BillInput) (now : ℕ) : DBState :=
  { s with bills := s.bills ++
      [{ user_id := uid
         btype := d.btype
         usage_amount := d.usage_amount
         cost := d.cost
         created_at := now }] }

/-- `manual_entry()` for authenticated user `email` with body `d`,
inserted at timestamp `now`: look up the user (404 on miss), validate the
bill type against `['water', 'electricity', 'gas']`, insert the bill,
then recompute the usage comparison; when it exists with
`usage_difference < 0` the endpoint `$inc`s the user's
`carbon_footprint_saved` by `calculate_carbon_savings(type, abs(diff))`,
awards `min(50, int(abs(percentage_change)))` points via
`User.add_points`, and creates a notification.  The final
`success_response` evaluates `bill_data['bill_id']`, a key `create_bill`
never adds to that dict, so it raises `KeyError` and the `except` clause
answers 500 — after all of the above writes have been applied. -/
def manual_entry (s : DBState) (email : String) (d : BillInput) (now : ℕ) :
    DBState × ManualOutcome :=
  match findUserByEmail s email with
  | none => (s, .userNotFound)
  | some current_user =>
    if d.btype ≠ "water" ∧ d.btype ≠ "electricity" ∧ d.btype ≠ "gas" then
      (s, .invalidBillType)
    else
      let s1 := insertBill s current_user.user_id d now
      let s2 :=
        match get_usage_comparison s1 current_user.user_id d.btype with
        | some comparison =>
          if comparison.usage_difference < 0 then
            let carbon_saved :=
              calculate_carbon_savings d.btype |comparison.usage_difference|
            let users' := updateFirst (fun u => u.user_id = current_user.user_id)
                (fun u => { u with carbon_footprint_saved :=
                    u.carbon_footprint_saved + carbon_saved }) s1.users
            let s2a := { s1 with users := users' }
            let points_earned := min 50 (truncInt |comparison.percentage_change|)
            let s2b := (add_points s2a current_user.user_id points_earned).1
            let notif : NotifRec :=
              { user_id := current_user.user_id
                title := "Great Job!"
                message := "You saved CO2 by reducing your usage!"
                ntype := "achievement" }
            { s2b with notifications := s2b.notifications ++ [notif] }
          else s1
        | none => s1
      (s2, .internalError)

/-!  ## Spec-side definitions (refinement targets) -/

/-- Following the spec's words (claim C4): the carbon factor is the
first-declared unit's factor for a recognized resource type
(electricity 0.5, water 0.0003, gas 2.0) and any unrecognized resource
type falls back to the electricity factor 0.5. -/
def spec_factor (t : String) : ℚ :=
  if t = "electricity" then 1/2
  else if t = "water" then 3/10000
  else if t = "gas" then 2
  else 1/2

/-!  ## Theorems -/

/-- C4: for every resource type and every rational `usageReduction`,
`calculate_carbon_savings` returns `round(usageReduction * factor, 2)`
where the factor is the first-declared unit's factor for recognized
types (electricity 0.5, water 0.0003, gas 2.0) and the electricity
factor 0.5 for any unrecognized type; in particular
`calculate_carbon_savings('electricity', 100) = 50.0` and
`calculate_carbon_savings('water', 1000) = 0.3`.  (Totality of the Lean
function is the "never fails" part.) -/
theorem C4_calculate_carbon_savings_spec :
    (∀ (t : String) (u : ℚ),
      calculate_carbon_savings t u = round2 (u * spec_factor t))
    ∧ calculate_carbon_savings "electricity" 100 = 50
    ∧ calculate_carbon_savings "water" 1000 = 3/10 := by
  refine ⟨?_, ?_, ?_⟩
  · intro t u
    unfold calculate_carbon_savings spec_factor dictGet emission_factors
      default_factors
    by_cases h1 : t = "electricity"
    · simp [h1, List.find?]
    · by_cases h2 : t = "water"
      · simp [h1, h2, List.find?]
      · by_cases h3 : t = "gas"
        · simp [h1, h2, h3, List.find?]
        · simp [h1, h2, h3, List.find?, Ne.symm h1, Ne.symm h2, Ne.symm h3]
  · simp [calculate_carbon_savings, dictGet, emission_factors,
      default_factors, List.find?]
    norm_num [round2, roundHalfEven]
  · simp [calculate_carbon_savings, dictGet, emission_factors,
      default_factors, List.find?]
    norm_num [round2, roundHalfEven]

/-- Updating the first element satisfying `p` with a `p`-preserving map
commutes with `find?`. -/
lemma find?_updateFirst {α : Type} (p : α → Bool) (f : α → α) (l : List α)
    (hf : ∀ a, p a = true → p (f a) = true) :
    (updateFirst p f l).find? p = (l.find? p).map f := by
  induction l with
  | nil => simp [updateFirst]
  | cons x xs ih =>
    by_cases hx : p x = true
    · simp [updateFirst, hx, List.find?_cons, hf x hx]
    · simp only [Bool.not_eq_true] at hx
      simp [updateFirst, hx, List.find?_cons, ih]

/-- C6: for every user id and integer delta (including negative),
`add_points` returns `false` and leaves all state unchanged when no user
with that id exists, and otherwise returns `true` after setting `points`
to the old points plus delta and `level` to
`max(1, newPoints // 100)` (Python floor division).  The exact stored
value entails that no point cap and no floor at zero are enforced;
totality of the Lean function is the "never throws" part. -/
theorem C6_add_points_spec (s : DBState) (uid : String) (delta : ℤ) :
    (findUserById s uid = none → add_points s uid delta = (s, false))
    ∧ (∀ u, findUserById s uid = some u →
        (add_points s uid delta).2 = true
        ∧ findUserById (add_points s uid delta).1 uid =
            some { u with points := u.points + delta,
                          level := max 1 (pyFloorDiv (u.points + delta) 100) }) := by
  constructor
  · intro h
    simp [add_points, h]
  · intro u h
    constructor
    · simp [add_points, h]
    · simp only [add_points, h, findUserById]
      have := find?_updateFirst (fun v => v.user_id = uid)
        (fun v => { v with points := u.points + delta,
                           level := max 1 (pyFloorDiv (u.points + delta) 100) })
        s.users (by intro a ha; simpa using ha)
      simp only [findUserById] at h
      simp [this, h]

/-- A concrete user used by the witnesses below. -/
def wUser : UserRec :=
  { user_id := "u1", email := "ann@example.com", points := 250, badges := [],
    level := 2, carbon_footprint_saved := 0 }

/-- A concrete one-user store used by the witnesses below. -/
def wState : DBState :=
  { users := [wUser], posts := [], reports := [], bills := [], rewards := [],
    notifications := [] }

/-- C6 witness: at the concrete store, a miss returns `(s, false)`; adding
`-300` to the user holding 250 points stores `points = -50` (no floor at
zero) and `level = max(1, -50 // 100) = 1`. -/
theorem C6_add_points_witness :
    add_points wState "zz" 5 = (wState, false)
    ∧ (add_points wState "u1" (-300)).2 = true
    ∧ findUserById (add_points wState "u1" (-300)).1 "u1" =
        some { wUser with points := -50, level := 1 } := by
  refine ⟨(C6_add_points_spec wState "zz" 5).1 (by decide), ?_, ?_⟩
  · exact ((C6_add_points_spec wState "u1" (-300)).2 wUser (by decide)).1
  · have := ((C6_add_points_spec wState "u1" (-300)).2 wUser (by decide)).2
    simpa using this

/-- The success path of `claim_reward`, for either behaviour of the
notification sink: the user update (points and, for a truthy badge name,
the appended badge list, both in the one `update_one`) happens first;
the notification append and the success response happen only when the
sink does not raise. -/
lemma claim_reward_success_path (s : DBState) (email rid : String) (nok : Bool)
    (cu : UserRec) (r : RewardRec)
    (h1 : findUserByEmail s email = some cu)
    (h2 : findReward s rid = some r)
    (h3 : r.points_required ≤ cu.points)
    (h4 : ¬(strOptTruthy r.badge_name = true ∧ r.badge_name.getD "" ∈ cu.badges))
    (h5 : verify_task_completion s cu.user_id r = true) :
    claim_reward s email rid nok =
      (let users' := updateFirst (fun u => u.user_id = cu.user_id)
          (fun u => { u with points := cu.points - r.points_required,
                             badges := if strOptTruthy r.badge_name
                               then cu.badges ++ [r.badge_name.getD ""]
                               else cu.badges }) s.users
       if nok then
         ({ s with users := users',
                   notifications := s.notifications ++ [claimNotif cu.user_id] },
          .success r.title r.badge_name r.points_required
            (cu.points - r.points_required))
       else
         ({ s with users := users' }, .internalError)) := by
  simp only [claim_reward, h1, h2]
  rw [if_neg (not_lt.mpr h3), if_neg h4, if_neg (by simp [h5])]

/-- C2: when the claiming user exists, the reward exists, the user's
points cover `points_required`, the reward's badge (when defined) is not
yet held, and the task predicate holds, `claim_reward` succeeds: the new
point total is exactly `points - points_required`, the badge name (when
defined and nonempty, i.e. truthy in Python) is appended exactly once,
both fields land in the single updated user document, and the response
reports the spent points, remaining points and badge name. -/
theorem C2_claim_reward_success (s : DBState) (email rid : String)
    (cu : UserRec) (r : RewardRec)
    (h1 : findUserByEmail s email = some cu)
    (hid : findUserById s cu.user_id = some cu)
    (h2 : findReward s rid = some r)
    (h3 : r.points_required ≤ cu.points)
    (h4 : ∀ b, r.badge_name = some b → b ∉ cu.badges)
    (h5 : verify_task_completion s cu.user_id r = true) :
    (claim_reward s email rid true).2 =
      .success r.title r.badge_name r.points_required
        (cu.points - r.points_required)
    ∧ findUserById (claim_reward s email rid true).1 cu.user_id =
        some { cu with points := cu.points - r.points_required,
                       badges := if strOptTruthy r.badge_name
                         then cu.badges ++ [r.badge_name.getD ""]
                         else cu.badges }
    ∧ (∀ b, r.badge_name = some b → b ≠ "" →
        (if strOptTruthy r.badge_name
         then cu.badges ++ [r.badge_name.getD ""]
         else cu.badges).count b = cu.badges.count b + 1
        ∧ cu.badges.count b = 0) := by
  have h4' : ¬(strOptTruthy r.badge_name = true ∧
      r.badge_name.getD "" ∈ cu.badges) := by
    rintro ⟨ht, hm⟩
    cases hb : r.badge_name with
    | none => simp [strOptTruthy, hb] at ht
    | some b =>
        rw [hb] at hm
        simp only [Option.getD_some] at hm
        exact h4 b hb hm
  have key := claim_reward_success_path s email rid true cu r h1 h2 h3 h4' h5
  refine ⟨by rw [key]; rfl, ?_, ?_⟩
  · rw [key]
    simp only [findUserById]
    have := find?_updateFirst (fun v => v.user_id = cu.user_id)
      (fun u => { u with points := cu.points - r.points_required,
                         badges := if strOptTruthy r.badge_name
                           then cu.badges ++ [r.badge_name.getD ""]
                           else cu.badges }) s.users
      (by intro a ha; simpa using ha)
    simp only [findUserById] at hid
    simp [this, hid]
  · intro b hb hne
    have hmem : b ∉ cu.badges := h4 b hb
    constructor
    · simp [strOptTruthy, hb, hne, List.count_append]
    · exact List.count_eq_zero.mpr hmem

/-- C10: the user update of `claim_reward` is persisted before the
notification is emitted, and the two steps are not atomic: when the
notification sink raises after the update, the endpoint reports a 500
failure while the deducted points and the appended badge remain
persisted, and no notification is stored; the users component is the
same one the fully successful run produces. -/
theorem C10_claim_reward_notification_failure (s : DBState) (email rid : String)
    (cu : UserRec) (r : RewardRec)
    (h1 : findUserByEmail s email = some cu)
    (hid : findUserById s cu.user_id = some cu)
    (h2 : findReward s rid = some r)
    (h3 : r.points_required ≤ cu.points)
    (h4 : ¬(strOptTruthy r.badge_name = true ∧ r.badge_name.getD "" ∈ cu.badges))
    (h5 : verify_task_completion s cu.user_id r = true) :
    (claim_reward s email rid false).2 = .internalError
    ∧ findUserById (claim_reward s email rid false).1 cu.user_id =
        some { cu with points := cu.points - r.points_required,
                       badges := if strOptTruthy r.badge_name
                         then cu.badges ++ [r.badge_name.getD ""]
                         else cu.badges }
    ∧ (claim_reward s email rid false).1.notifications = s.notifications
    ∧ (claim_reward s email rid true).1.users =
        (claim_reward s email rid false).1.users
    ∧ (claim_reward s email rid true).1.notifications =
        s.notifications ++ [claimNotif cu.user_id] := by
  have keyF := claim_reward_success_path s email rid false cu r h1 h2 h3 h4 h5
  have keyT := claim_reward_success_path s email rid true cu r h1 h2 h3 h4 h5
  refine ⟨by rw [keyF]; rfl, ?_, by rw [keyF]; rfl, by rw [keyT, keyF]; rfl,
    by rw [keyT]; rfl⟩
  rw [keyF]
  simp only [findUserById]
  have := find?_updateFirst (fun v => v.user_id = cu.user_id)
    (fun u => { u with points := cu.points - r.points_required,
                       badges := if strOptTruthy r.badge_name
                         then cu.badges ++ [r.badge_name.getD ""]
                         else cu.badges }) s.users
    (by intro a ha; simpa using ha)
  simp only [findUserById] at hid
  simp [this, hid]

/-- C3: the failure kind of `claim_reward` is decided by the first
failing check in source order — user lookup, reward lookup, points
(regardless of task completion), already-claimed badge (even with
sufficient points), task verification — and every failure leaves the
store exactly unchanged. -/
theorem C3_claim_reward_error_order (s : DBState) (email rid : String)
    (nok : Bool) :
    (findUserByEmail s email = none →
      claim_reward s email rid nok = (s, .userNotFound))
    ∧ (∀ cu, findUserByEmail s email = some cu →
        (findReward s rid = none →
          claim_reward s email rid nok = (s, .rewardNotFound))
        ∧ (∀ r, findReward s rid = some r →
            (cu.points < r.points_required →
              claim_reward s email rid nok =
                (s, .insufficientPoints r.points_required cu.points))
            ∧ (r.points_required ≤ cu.points →
                (∀ b, r.badge_name = some b → b ≠ "" → b ∈ cu.badges →
                  claim_reward s email rid nok = (s, .alreadyClaimed))
                ∧ (¬(strOptTruthy r.badge_name = true ∧
                      r.badge_name.getD "" ∈ cu.badges) →
                    verify_task_completion s cu.user_id r = false →
                    claim_reward s email rid nok =
                      (s, .taskIncomplete r.description))))) := by
  refine ⟨fun h => by simp [claim_reward, h], fun cu h1 => ⟨fun h2 => by
    simp [claim_reward, h1, h2], fun r h2 => ⟨fun hlt => ?_, fun hge =>
    ⟨fun b hb hbne hmem => ?_, fun hbad hv => ?_⟩⟩⟩⟩
  · simp only [claim_reward, h1, h2]
    rw [if_pos hlt]
  · simp only [claim_reward, h1, h2]
    rw [if_neg (not_lt.mpr hge),
      if_pos ⟨by simp [strOptTruthy, hb, hbne], by simp [hb, hmem]⟩]
  · simp only [claim_reward, h1, h2]
    rw [if_neg (not_lt.mpr hge), if_neg hbad, if_pos (by simp [hv])]

/-- A reward claimable by `wUser` (level 2 meets the `level_reached`
threshold 2). -/
def wReward : RewardRec :=
  { reward_id := "r1", title := "Eco Hero", description := "Reach level 2",
    points_required := 150, badge_name := some "eco-hero",
    task_type := "level_reached", task_count := 2 }

/-- Store with `wUser` and the claimable reward `wReward`. -/
def wState2 : DBState :=
  { users := [wUser], posts := [], reports := [], bills := [],
    rewards := [wReward], notifications := [] }

/-- C1: the level invariant `level = max(1, points // 100)` holds for
`wUser` before the claim, the claim of the 150-point reward succeeds
leaving 100 points, yet the stored level is still 2 while
`max(1, 100 // 100) = 1`: `claim_reward` deducts points without
recomputing the level, so the invariant the spec requires after every
ledger mutation is broken by the code. -/
theorem C1_claim_reward_level_stale :
    wUser.level = max 1 (pyFloorDiv wUser.points 100)
    ∧ (claim_reward wState2 "ann@example.com" "r1" true).2 =
        .success "Eco Hero" (some "eco-hero") 150 100
    ∧ findUserById (claim_reward wState2 "ann@example.com" "r1" true).1 "u1" =
        some { wUser with points := 100, badges := ["eco-hero"] }
    ∧ ({ wUser with points := 100, badges := ["eco-hero"] } : UserRec).level
        ≠ max 1 (pyFloorDiv 100 100) := by
  decide

/-- `wUser` already holding the badge of `wReward`. -/
def wUser3 : UserRec := { wUser with badges := ["eco-hero"] }

/-- A reward `wUser3` cannot afford. -/
def wReward2 : RewardRec :=
  { reward_id := "r2", title := "Big Spender", description := "Spend big",
    points_required := 500, badge_name := none,
    task_type := "posts_created", task_count := 1 }

/-- A reward whose task `wUser3` has not completed. -/
def wReward3 : RewardRec :=
  { reward_id := "r3", title := "Author", description := "Create a post",
    points_required := 150, badge_name := none,
    task_type := "posts_created", task_count := 1 }

/-- Store exercising every failure branch of `claim_reward`. -/
def wState3 : DBState :=
  { users := [wUser3], posts := [], reports := [], bills := [],
    rewards := [wReward, wReward2, wReward3], notifications := [] }

/-- C2 witness: the concrete claim of `wReward` by `wUser` succeeds,
stores 100 points and the badge appended once, and reports title, badge,
spent and remaining points. -/
theorem C2_claim_reward_success_witness :
    (claim_reward wState2 "ann@example.com" "r1" true).2 =
      .success "Eco Hero" (some "eco-hero") 150 100
    ∧ findUserById (claim_reward wState2 "ann@example.com" "r1" true).1 "u1" =
        some { wUser with points := 100, badges := ["eco-hero"] }
    ∧ (if strOptTruthy wReward.badge_name
        then wUser.badges ++ [wReward.badge_name.getD ""]
        else wUser.badges).count "eco-hero" = wUser.badges.count "eco-hero" + 1
    ∧ wUser.badges.count "eco-hero" = 0 := by
  have h := C2_claim_reward_success wState2 "ann@example.com" "r1" wUser wReward
    (by decide) (by decide) (by decide) (by decide)
    (by intro b hb; simp only [wReward, Option.some.injEq] at hb; subst hb; decide)
    (by decide)
  have hcnt := h.2.2 "eco-hero" rfl (by decide)
  exact ⟨by simpa using h.1, by simpa using h.2.1, hcnt.1, hcnt.2⟩

/-- C10 witness: the same concrete claim with a failing notification sink
answers 500 yet persists the deducted points and the badge, storing no
notification. -/
theorem C10_claim_reward_notification_failure_witness :
    (claim_reward wState2 "ann@example.com" "r1" false).2 = .internalError
    ∧ findUserById (claim_reward wState2 "ann@example.com" "r1" false).1 "u1" =
        some { wUser with points := 100, badges := ["eco-hero"] }
    ∧ (claim_reward wState2 "ann@example.com" "r1" false).1.notifications = [] := by
  have h := C10_claim_reward_notification_failure wState2 "ann@example.com" "r1"
    wUser wReward (by decide) (by decide) (by decide) (by decide) (by decide)
    (by decide)
  exact ⟨h.1, by simpa using h.2.1, by simpa using h.2.2.1⟩

/-- C3 witness: one concrete store exhibits all five failure outcomes,
each leaving the store unchanged. -/
theorem C3_claim_reward_error_order_witness :
    claim_reward wState3 "bob@example.com" "r1" true = (wState3, .userNotFound)
    ∧ claim_reward wState3 "ann@example.com" "nope" true =
        (wState3, .rewardNotFound)
    ∧ claim_reward wState3 "ann@example.com" "r2" true =
        (wState3, .insufficientPoints 500 250)
    ∧ claim_reward wState3 "ann@example.com" "r1" true =
        (wState3, .alreadyClaimed)
    ∧ claim_reward wState3 "ann@example.com" "r3" true =
        (wState3, .taskIncomplete "Create a post") := by
  refine ⟨?_, ?_, ?_, ?_, ?_⟩
  · exact (C3_claim_reward_error_order wState3 "bob@example.com" "r1" true).1
      (by decide)
  · exact ((C3_claim_reward_error_order wState3 "ann@example.com" "nope" true).2
      wUser3 (by decide)).1 (by decide)
  · have := (((C3_claim_reward_error_order wState3 "ann@example.com" "r2" true).2
      wUser3 (by decide)).2 wReward2 (by decide)).1 (by decide)
    simpa using this
  · exact ((((C3_claim_reward_error_order wState3 "ann@example.com" "r1" true).2
      wUser3 (by decide)).2 wReward (by decide)).2 (by decide)).1 "eco-hero" rfl
      (by decide) (by decide)
  · have := ((((C3_claim_reward_error_order wState3 "ann@example.com" "r3" true).2
      wUser3 (by decide)).2 wReward3 (by decide)).2 (by decide)).2 (by decide)
      (by decide)
    simpa using this

/-- C7: the task oracle dispatches on the task type:
`posts_created` / `reports_created` / `bills_uploaded` compare the
user's record counts against the threshold, `carbon_saved` compares
`carbon_footprint_saved`, `likes_received` compares the sum of
`likes_count` over the user's posts and reports, and `level_reached`
compares the stored level; each holds iff the quantity reaches
`task_count`. -/
theorem C7_verify_task_completion_dispatch (s : DBState) (uid : String)
    (r : RewardRec) :
    (r.task_type = "posts_created" →
      (verify_task_completion s uid r = true ↔
        r.task_count ≤ (countPosts s uid : ℤ)))
    ∧ (r.task_type = "reports_created" →
      (verify_task_completion s uid r = true ↔
        r.task_count ≤ (countReports s uid : ℤ)))
    ∧ (r.task_type = "bills_uploaded" →
      (verify_task_completion s uid r = true ↔
        r.task_count ≤ (countBills s uid : ℤ)))
    ∧ (r.task_type = "carbon_saved" → ∀ u, findUserById s uid = some u →
      (verify_task_completion s uid r = true ↔
        (r.task_count : ℚ) ≤ u.carbon_footprint_saved))
    ∧ (r.task_type = "likes_received" →
      (verify_task_completion s uid r = true ↔
        r.task_count ≤ totalLikes s uid))
    ∧ (r.task_type = "level_reached" → ∀ u, findUserById s uid = some u →
      (verify_task_completion s uid r = true ↔ r.task_count ≤ u.level)) := by
  refine ⟨fun ht => ?_, fun ht => ?_, fun ht => ?_, fun ht u hu => ?_,
    fun ht => ?_, fun ht u hu => ?_⟩
  · simp [verify_task_completion, ht]
  · simp [verify_task_completion, ht]
  · simp [verify_task_completion, ht]
  · simp [verify_task_completion, ht, hu]
  · simp [verify_task_completion, ht]
  · simp [verify_task_completion, ht, hu]

/-- C7 witness: on the concrete store, `level_reached` with threshold 3
holds iff the stored level (2) is at least 3, and `wReward`'s threshold-2
check holds. -/
theorem C7_verify_witness :
    (verify_task_completion wState2 "u1"
      { wReward with task_type := "level_reached", task_count := 3 } = true ↔
      (3 : ℤ) ≤ wUser.level)
    ∧ verify_task_completion wState2 "u1" wReward = true := by
  constructor
  · have := (C7_verify_task_completion_dispatch wState2 "u1"
      { wReward with task_type := "level_reached", task_count := 3 }).2.2.2.2.2
      rfl wUser (by decide)
    simpa using this
  · have := (C7_verify_task_completion_dispatch wState2 "u1" wReward).2.2.2.2.2
      rfl wUser (by decide)
    simp only [this]
    decide

/-- C8: the task oracle never propagates an error: an unrecognized task
type yields `true` (manual verification), and a missing user during a
`carbon_saved` or `level_reached` check (an `AttributeError` on
`None.get`, swallowed by the handler) yields `false` rather than an
exception. -/
theorem C8_verify_task_completion_failsafe (s : DBState) (uid : String)
    (r : RewardRec) :
    (r.task_type ≠ "posts_created" → r.task_type ≠ "reports_created" →
     r.task_type ≠ "bills_uploaded" → r.task_type ≠ "carbon_saved" →
     r.task_type ≠ "likes_received" → r.task_type ≠ "level_reached" →
      verify_task_completion s uid r = true)
    ∧ (findUserById s uid = none → r.task_type = "carbon_saved" →
      verify_task_completion s uid r = false)
    ∧ (findUserById s uid = none → r.task_type = "level_reached" →
      verify_task_completion s uid r = false) := by
  refine ⟨fun h1 h2 h3 h4 h5 h6 => ?_, fun hu ht => ?_, fun hu ht => ?_⟩
  · simp [verify_task_completion, h1, h2, h3, h4, h5, h6]
  · simp [verify_task_completion, hu, ht]
  · simp [verify_task_completion, hu, ht]

/-- C8 witness: a made-up task type passes, and both user-lookup
predicates deny the claim for a missing user. -/
theorem C8_verify_witness :
    verify_task_completion wState2 "u1"
      { wReward with task_type := "community-service" } = true
    ∧ verify_task_completion wState2 "ghost"
        { wReward with task_type := "carbon_saved" } = false
    ∧ verify_task_completion wState2 "ghost"
        { wReward with task_type := "level_reached" } = false := by
  refine ⟨?_, ?_, ?_⟩
  · exact (C8_verify_task_completion_failsafe wState2 "u1"
      { wReward with task_type := "community-service" }).1
      (by decide) (by decide) (by decide) (by decide) (by decide) (by decide)
  · exact (C8_verify_task_completion_failsafe wState2 "ghost"
      { wReward with task_type := "carbon_saved" }).2.1 (by decide) rfl
  · exact (C8_verify_task_completion_failsafe wState2 "ghost"
      { wReward with task_type := "level_reached" }).2.2 (by decide) rfl


/-- Inserting into the descending-sorted bill list adds one element. -/
lemma length_insertByCreatedDesc (b : BillRec) (l : List BillRec) :
    (insertByCreatedDesc b l).length = l.length + 1 := by
  induction l with
  | nil => rfl
  | cons c cs ih =>
      by_cases h : c.created_at ≤ b.created_at
      · simp [insertByCreatedDesc, h]
      · simp [insertByCreatedDesc, h, ih]

/-- Sorting bills by `created_at` descending preserves length. -/
lemma length_sortByCreatedDesc (l : List BillRec) :
    (sortByCreatedDesc l).length = l.length := by
  induction l with
  | nil => rfl
  | cons b bs ih => simp [sortByCreatedDesc, length_insertByCreatedDesc, ih]

/-- C5 (amended): `get_usage_comparison` returns `None` exactly when
fewer than 2 bills exist for the (user, type) pair; with at least 2 it
compares the two most recent (by `created_at` descending) with
`usageDifference = current - previous`, and
`percentageChange = usageDifference / previousUsage * 100` when
`previousUsage > 0`, else `0` (the code's guard is `> 0`, not `== 0`;
see the counterexample). -/
theorem C5_usage_comparison_amended (s : DBState) (uid t : String) :
    (get_usage_comparison s uid t = none ↔
      (s.bills.filter (fun b => b.user_id = uid ∧ b.btype = t)).length < 2)
    ∧ (∀ cur prev rest,
        sortByCreatedDesc
            (s.bills.filter (fun b => b.user_id = uid ∧ b.btype = t)) =
          cur :: prev :: rest →
        get_usage_comparison s uid t =
          some { current_usage := cur.usage_amount
                 previous_usage := prev.usage_amount
                 usage_difference := cur.usage_amount - prev.usage_amount
                 cost_difference := cur.cost - prev.cost
                 percentage_change :=
                   if 0 < prev.usage_amount
                   then (cur.usage_amount - prev.usage_amount) /
                     prev.usage_amount * 100
                   else 0 }) := by
  constructor
  · have hlen := length_sortByCreatedDesc
      (s.bills.filter (fun b => b.user_id = uid ∧ b.btype = t))
    rcases hs : sortByCreatedDesc
        (s.bills.filter (fun b => b.user_id = uid ∧ b.btype = t)) with
      (_ | ⟨a, (_ | ⟨b, rest⟩)⟩)
    · rw [hs] at hlen
      simp only [get_usage_comparison]
      rw [hs]
      simp at hlen ⊢
      omega
    · rw [hs] at hlen
      simp only [get_usage_comparison]
      rw [hs]
      simp at hlen ⊢
      omega
    · rw [hs] at hlen
      simp only [get_usage_comparison]
      rw [hs]
      simp at hlen ⊢
      omega
  · intro cur prev rest h
    simp only [get_usage_comparison]
    rw [h]
    rfl

def c5BillNegPrev : BillRec :=
  { user_id := "u1", btype := "water", usage_amount := -100, cost := 40,
    created_at := 1 }

def c5BillNegCur : BillRec :=
  { user_id := "u1", btype := "water", usage_amount := 50, cost := 50,
    created_at := 2 }

def c5StateNeg : DBState :=
  { users := [], posts := [], reports := [], bills := [c5BillNegPrev, c5BillNegCur],
    rewards := [], notifications := [] }

/-- C5 counterexample: with previous usage `-100` (nonzero) and current
usage `50`, the code returns `percentage_change = 0`, while the claim's
formula `usageDifference / previousUsage * 100 = -150` is nonzero: the
claim's "yields 0 only when previousUsage == 0" reading is false. -/
theorem C5_usage_comparison_counterexample :
    get_usage_comparison c5StateNeg "u1" "water" =
      some { current_usage := 50, previous_usage := -100,
             usage_difference := 150, cost_difference := 10,
             percentage_change := 0 }
    ∧ (-100 : ℚ) ≠ 0
    ∧ (150 : ℚ) / (-100) * 100 ≠ 0 := by
  refine ⟨?_, by norm_num, by norm_num⟩
  have hsort : sortByCreatedDesc
      (c5StateNeg.bills.filter
        (fun b => b.user_id = "u1" ∧ b.btype = "water")) =
      [c5BillNegCur, c5BillNegPrev] := by decide
  simp only [get_usage_comparison]
  rw [hsort]
  simp only [List.take, c5BillNegCur, c5BillNegPrev]
  norm_num

def c5BillExPrev : BillRec :=
  { user_id := "u1", btype := "water", usage_amount := 100, cost := 60,
    created_at := 1 }

def c5BillExCur : BillRec :=
  { user_id := "u1", btype := "water", usage_amount := 80, cost := 55,
    created_at := 2 }

def c5StateEx : DBState :=
  { users := [], posts := [], reports := [], bills := [c5BillExPrev, c5BillExCur],
    rewards := [], notifications := [] }

def c5StateOne : DBState :=
  { users := [], posts := [], reports := [], bills := [c5BillExPrev],
    rewards := [], notifications := [] }

/-- C5 witness: one bill gives `None`; previous usage 100 and current 80
give `usageDifference = -20` and `percentageChange = -20`. -/
theorem C5_usage_comparison_witness :
    get_usage_comparison c5StateOne "u1" "water" = none
    ∧ get_usage_comparison c5StateEx "u1" "water" =
        some { current_usage := 80, previous_usage := 100,
               usage_difference := -20, cost_difference := -5,
               percentage_change := -20 } := by
  constructor
  · exact (C5_usage_comparison_amended c5StateOne "u1" "water").1.mpr (by decide)
  · have h := (C5_usage_comparison_amended c5StateEx "u1" "water").2
      c5BillExCur c5BillExPrev [] (by decide)
    rw [h]
    simp only [c5BillExCur, c5BillExPrev]
    norm_num


/-- C9: after a manual bill entry, the ledger is credited iff the
post-insert usage comparison exists with negative `usage_difference`:
then `carbon_footprint_saved` grows by
`calculate_carbon_savings(type, |usageDifference|)` and the user gains
`min(50, int(|percentageChange|))` points via `add_points` (which also
recomputes the level); when the comparison is `None` or the difference
is nonnegative, the user document is untouched. -/
theorem C9_manual_entry_credit (s : DBState) (email : String) (d : BillInput)
    (now : ℕ) (cu : UserRec)
    (h1 : findUserByEmail s email = some cu)
    (hid : findUserById s cu.user_id = some cu)
    (ht : d.btype = "water" ∨ d.btype = "electricity" ∨ d.btype = "gas") :
    (∀ c, get_usage_comparison (insertBill s cu.user_id d now) cu.user_id
        d.btype = some c →
      c.usage_difference < 0 →
      findUserById (manual_entry s email d now).1 cu.user_id =
        some { cu with
          carbon_footprint_saved := cu.carbon_footprint_saved +
            calculate_carbon_savings d.btype |c.usage_difference|,
          points := cu.points + min 50 (truncInt |c.percentage_change|),
          level := max 1 (pyFloorDiv
            (cu.points + min 50 (truncInt |c.percentage_change|)) 100) })
    ∧ (get_usage_comparison (insertBill s cu.user_id d now) cu.user_id
        d.btype = none →
      findUserById (manual_entry s email d now).1 cu.user_id = some cu)
    ∧ (∀ c, get_usage_comparison (insertBill s cu.user_id d now) cu.user_id
        d.btype = some c →
      0 ≤ c.usage_difference →
      findUserById (manual_entry s email d now).1 cu.user_id = some cu) := by
  have hvalid : ¬(d.btype ≠ "water" ∧ d.btype ≠ "electricity" ∧
      d.btype ≠ "gas") := by tauto
  refine ⟨fun c hc hneg => ?_, fun hc => ?_, fun c hc hnn => ?_⟩
  · simp only [manual_entry, h1]
    rw [if_neg hvalid]
    rw [hc]
    dsimp only
    rw [if_pos hneg]
    simp only [findUserById] at hid
    have hf1 : List.find? (fun v => v.user_id = cu.user_id)
        (updateFirst (fun v => v.user_id = cu.user_id)
          (fun u => { u with carbon_footprint_saved :=
              u.carbon_footprint_saved +
                calculate_carbon_savings d.btype |c.usage_difference| })
          s.users) =
        some { cu with carbon_footprint_saved :=
            cu.carbon_footprint_saved +
              calculate_carbon_savings d.btype |c.usage_difference| } := by
      rw [find?_updateFirst _ _ _ (by intro a ha; simpa using ha), hid]
      rfl
    simp only [add_points, findUserById, insertBill]
    rw [hf1]
    dsimp only
    rw [find?_updateFirst _ _ _ (by intro a ha; simpa using ha), hf1]
    rfl
  · simp only [manual_entry, h1]
    rw [if_neg hvalid]
    rw [hc]
    simpa [findUserById, insertBill] using hid
  · simp only [manual_entry, h1]
    rw [if_neg hvalid]
    rw [hc]
    dsimp only
    rw [if_neg (not_lt.mpr hnn)]
    simpa [findUserById, insertBill] using hid

def c9Input : BillInput := { btype := "water", usage_amount := 80, cost := 55 }

def c9State : DBState :=
  { users := [wUser], posts := [], reports := [], bills := [c5BillExPrev],
    rewards := [], notifications := [] }

/-- C9 witness: entering a water bill of 80 after one of 100 credits
`round(20 * 0.0003, 2) = 0.01` kg CO2 and `min(50, 20) = 20` points
(250 → 270, level recomputed to 2); with no prior bill nothing changes. -/
theorem C9_manual_entry_credit_witness :
    findUserById (manual_entry c9State "ann@example.com" c9Input 2).1 "u1" =
      some { wUser with carbon_footprint_saved := 1/100, points := 270,
                        level := 2 }
    ∧ findUserById (manual_entry wState2 "ann@example.com" c9Input 2).1 "u1" =
        some wUser := by
  constructor
  · have hc : get_usage_comparison (insertBill c9State "u1" c9Input 2) "u1"
        "water" =
        some { current_usage := 80, previous_usage := 100,
               usage_difference := -20, cost_difference := -5,
               percentage_change := -20 } := by
      have hsort : sortByCreatedDesc
          ((insertBill c9State "u1" c9Input 2).bills.filter
            (fun b => b.user_id = "u1" ∧ b.btype = "water")) =
          [{ user_id := "u1", btype := "water", usage_amount := 80, cost := 55,
             created_at := 2 }, c5BillExPrev] := by decide
      simp only [get_usage_comparison]
      rw [hsort]
      simp only [List.take, c5BillExPrev]
      norm_num
    have h := (C9_manual_entry_credit c9State "ann@example.com" c9Input 2 wUser
      (by decide) (by decide) (Or.inl rfl)).1 _ hc (by norm_num)
    simp only [wUser] at h
    have htr : truncInt |(-20 : ℚ)| = 20 := by decide
    have hfd : (1 : ℤ) ⊔ pyFloorDiv (250 + 50 ⊓ 20) 100 = 2 := by decide
    rw [h]
    simp only [c9Input, htr, hfd]
    simp [calculate_carbon_savings, dictGet, emission_factors,
      default_factors, List.find?]
    norm_num [round2, roundHalfEven]
    simp [wUser]
  · exact (C9_manual_entry_credit wState2 "ann@example.com" c9Input 2 wUser
      (by decide) (by decide) (Or.inl rfl)).2.1 (by decide)


end CityZen
